import Mathlib

/-!
Shallow embedding of the device-side firmware core of TurbEye (ESP32
Arduino sketch): the cooperative scheduler loop, the sensor sampler, the
link supervisor and the request server's data handler, translated from
the sketch. Machine integers are modelled as Nat with explicit reduction
modulo 2^32 wherever 32-bit unsigned arithmetic matters (millis(), the
composite uint32_t sensor reading); the sensor primitive's calibration
function (tsl.calculateLux, a float computation the sketch treats as
opaque) is a parameter of the model, and external readings (millis(),
WiFi.status(), tsl.getFullLuminosity()) are inputs supplied per tick.
-/

namespace TurbEye

/-- The modulus 2^32 of unsigned long / uint32_t arithmetic on the ESP32. -/
def U32 : Nat := 4294967296

/-- struct SensorData (sketch lines 23-28): the shared latest-reading
snapshot. lux is a float in the sketch, modelled as the opaque integer
output of the calibration parameter; timestamp holds a 32-bit millis()
value. -/
structure SensorData where
  visible_ir : Nat
  ir : Nat
  lux : Int
  timestamp : Nat
deriving DecidableEq, Repr

/-- Zero initialization of the global latestData (C++ static storage). -/
def latestDataInit : SensorData :=
  { visible_ir := 0, ir := 0, lux := 0, timestamp := 0 }

/-- sensorInterval (sketch line 36). -/
def sensorInterval : Nat := 500

/-- wifiCheckInterval (sketch line 37); declared long in the sketch but
used only in an unsigned comparison after integral conversion. -/
def wifiCheckInterval : Nat := 10000

/-- wifiLogInterval (sketch line 38), same remark as wifiCheckInterval. -/
def wifiLogInterval : Nat := 30000

/-- The mutable globals the loop reads and writes (sketch lines 30-42),
together with the registration state of the WebServer object:
serverBeginCalls counts server.begin() invocations, routesRegistered and
corsEnabled record whether server.on(...) and server.enableCORS(true)
have ever run. -/
structure SchedState where
  prevSensorMillis : Nat
  previousWiFiMillis : Nat
  wifiLogMillis : Nat
  wifiConnected : Bool
  wifiReconnectAttempts : Nat
  latestData : SensorData
  serverBeginCalls : Nat
  routesRegistered : Bool
  corsEnabled : Bool
deriving DecidableEq, Repr

/-- Values of the globals at boot. -/
def initState : SchedState :=
  { prevSensorMillis := 0, previousWiFiMillis := 0, wifiLogMillis := 0,
    wifiConnected := false, wifiReconnectAttempts := 0,
    latestData := latestDataInit, serverBeginCalls := 0,
    routesRegistered := false, corsEnabled := false }

/-- Observable occurrences during one tick, used to count task
executions. -/
inductive Event where
  | handleClient
  | sensorRead
  | wifiCheck
  | wifiLog
  | connectSeq
deriving DecidableEq, Repr

/-- Number of occurrences of one kind of event in a tick's event list. -/
def countEvent (e : Event) : List Event → Nat
  | [] => 0
  | a :: l => (if a = e then 1 else 0) + countEvent e l

/-- The 32-bit unsigned subtraction cur - prev used by the due-time tests
of loop (sketch lines 108, 114, 120); cur and prev are below 2^32. -/
def millisSub (cur prev : Nat) : Nat := (cur + U32 - prev) % U32

/-- void readLightSensor() (sketch lines 128-139): decompose the 32-bit
composite luminosity into a high 16-bit infrared and a low 16-bit
broadband channel, compute lux with the calibration primitive, and
overwrite the whole snapshot; tNow is the millis() reading of line 138. -/
def readLightSensor (calculateLux : Nat → Nat → Int) (full tNow : Nat) :
    SensorData :=
  let f := full % U32
  let ir := f / 65536
  let broadband := f % 65536
  { visible_ir := broadband, ir := ir,
    lux := calculateLux broadband ir, timestamp := tNow % U32 }

/-- The structured content of one transport response: status code,
content type, and the four JSON fields assembled by handleData. -/
structure DataResponse where
  statusCode : Nat
  contentType : String
  visible_ir : Nat
  ir : Nat
  lux : Int
  timestamp : Nat
deriving DecidableEq, Repr

/-- void handleData() (sketch lines 173-183): unconditionally answer 200
with the four fields of the current snapshot. -/
def handleData (d : SensorData) : DataResponse :=
  { statusCode := 200, contentType := "application/json",
    visible_ir := d.visible_ir, ir := d.ir,
    lux := d.lux, timestamp := d.timestamp }

/-- The retry loop of connectToNYUWiFi (sketch lines 206-212):
while (WiFi.status() != WL_CONNECTED and attempts < 30) wait 1000 ms and
increment attempts. status is the stream of WiFi.status() readings and i
the index of the next reading; remaining = 30 - attempts keeps the
recursion structural, so the guard attempts < 30 reads remaining > 0.
Every evaluation of the loop condition consumes one status reading, the
final one included. Returns (next reading index, attempts counter). -/
def connectLoop (status : Nat → Bool) (i attempts : Nat) :
    Nat → Nat × Nat
  | 0 => (i + 1, attempts)
  | remaining + 1 =>
    if status i then (i + 1, attempts)
    else connectLoop status (i + 1) (attempts + 1) remaining

/-- void connectToNYUWiFi() (sketch lines 185-219): disconnect, a fixed
1000 ms delay, EAP configuration and WiFi.begin (none of which read the
status), then the bounded retry loop from attempts = 0, then one more
status reading for the success/failure log (line 214). Returns (next
reading index, attempts used). -/
def connectToNYUWiFi (status : Nat → Bool) (i : Nat) : Nat × Nat :=
  let r := connectLoop status i 0 30
  (r.1 + 1, r.2)

/-- Blocking time in ms of one connectToNYUWiFi call: the fixed delay of
line 193 plus one fixed 1000 ms delay per loop attempt. -/
def connectDelayMs (attempts : Nat) : Nat := 1000 + 1000 * attempts

/-- void monitorWiFiConnection() (sketch lines 221-245); status and i as
in connectLoop. Returns (next reading index, updated state, events). -/
def monitorWiFiConnection (status : Nat → Bool) (i : Nat)
    (s : SchedState) : Nat × SchedState × List Event :=
  if status i = false then
    let s1 :=
      if s.wifiConnected then
        { s with wifiConnected := false,
                 wifiReconnectAttempts := s.wifiReconnectAttempts + 1 }
      else s
    let c := connectToNYUWiFi status (i + 1)
    let s2 :=
      if status c.1 && !s1.wifiConnected then
        { s1 with wifiConnected := true,
                  serverBeginCalls := s1.serverBeginCalls + 1 }
      else s1
    (c.1 + 1, s2, [Event.connectSeq])
  else
    let s1 :=
      if !s.wifiConnected then { s with wifiConnected := true } else s
    (i + 1, s1, [])

/-- External readings consulted during one tick: t is the true elapsed
time in ms (the free-running counter reads t mod 2^32), full the sensor
primitive's composite reading, wifiStatus this tick's stream of
WiFi.status() readings. -/
structure TickInput where
  t : Nat
  full : Nat
  wifiStatus : Nat → Bool

/-- void loop() (sketch lines 101-124): one tick. server.handleClient()
runs first, then each periodic task at most once, guarded by its
wraparound-safe due-time test; a timer is set to currentMillis just
before its task body runs. -/
def loop (calculateLux : Nat → Nat → Int) (inp : TickInput)
    (s : SchedState) : SchedState × List Event :=
  let currentMillis := inp.t % U32
  let r1 :=
    if sensorInterval ≤ millisSub currentMillis s.prevSensorMillis then
      ({ s with prevSensorMillis := currentMillis,
                latestData := readLightSensor calculateLux inp.full inp.t },
       [Event.sensorRead])
    else (s, [])
  let r2 :=
    if wifiCheckInterval ≤ millisSub currentMillis r1.1.previousWiFiMillis then
      let m := monitorWiFiConnection inp.wifiStatus 0
        { r1.1 with previousWiFiMillis := currentMillis }
      (m.2.1, Event.wifiCheck :: m.2.2)
    else (r1.1, [])
  let r3 :=
    if wifiLogInterval ≤ millisSub currentMillis r2.1.wifiLogMillis then
      ({ r2.1 with wifiLogMillis := currentMillis }, [Event.wifiLog])
    else (r2.1, [])
  (r3.1, Event.handleClient :: (r1.2 ++ r2.2 ++ r3.2))

/-- Readings consulted at boot: whether tsl.begin() succeeds, and the
stream of WiFi.status() readings of setup. -/
structure BootInput where
  sensorInitOk : Bool
  wifiStatus : Nat → Bool

/-- System state: halted models the infinite LED-blink loop entered when
tsl.begin() fails (sketch lines 61-66), which never returns. -/
inductive SysState where
  | halted
  | running (s : SchedState)
deriving DecidableEq, Repr

/-- void setup() (sketch lines 44-99): sensor bring-up (halting forever
on failure), the boot connect, and - only when the status reading of
line 76 is connected - route registration, CORS and the server start. -/
def setup (b : BootInput) : SysState :=
  if b.sensorInitOk then
    let c := connectToNYUWiFi b.wifiStatus 0
    if b.wifiStatus c.1 then
      SysState.running
        { initState with wifiConnected := true,
                         routesRegistered := true, corsEnabled := true,
                         serverBeginCalls := 1 }
    else SysState.running initState
  else SysState.halted

/-- One tick of the whole system: in the halted state no tick body ever
runs and no event is produced. -/
def sysStep (calculateLux : Nat → Nat → Int) (inp : TickInput) :
    SysState → SysState × List Event
  | SysState.halted => (SysState.halted, [])
  | SysState.running s =>
    let r := loop calculateLux inp s
    (SysState.running r.1, r.2)

/-- Run the system over a list of tick inputs, collecting all events. -/
def sysRun (calculateLux : Nat → Nat → Int) :
    List TickInput → SysState → SysState × List Event
  | [], st => (st, [])
  | inp :: rest, st =>
    let r := sysStep calculateLux inp st
    let r2 := sysRun calculateLux rest r.1
    (r2.1, r.2 ++ r2.2)

/-- States after each successive tick of loop() starting from s. -/
def runStates (calculateLux : Nat → Nat → Int) (s : SchedState) :
    List TickInput → List SchedState
  | [] => []
  | inp :: rest =>
    let s1 := (loop calculateLux inp s).1
    s1 :: runStates calculateLux s1 rest

/-- Successive monitorWiFiConnection calls (one per due link check), each
with its own stream of status readings. -/
def monitorRun (envs : List (Nat → Bool)) (s : SchedState) : SchedState :=
  match envs with
  | [] => s
  | e :: rest => monitorRun rest (monitorWiFiConnection e 0 s).2.1

/-! ### Helper lemmas -/

/-- The link check touches only the connection flag, the reconnect
counter and the server-start count; every other field survives. -/
theorem monitor_preserves (status : Nat → Bool) (i : Nat) (s : SchedState) :
    ((monitorWiFiConnection status i s).2.1.prevSensorMillis = s.prevSensorMillis) ∧
    ((monitorWiFiConnection status i s).2.1.previousWiFiMillis = s.previousWiFiMillis) ∧
    ((monitorWiFiConnection status i s).2.1.wifiLogMillis = s.wifiLogMillis) ∧
    ((monitorWiFiConnection status i s).2.1.latestData = s.latestData) ∧
    ((monitorWiFiConnection status i s).2.1.routesRegistered = s.routesRegistered) ∧
    ((monitorWiFiConnection status i s).2.1.corsEnabled = s.corsEnabled) := by
  unfold monitorWiFiConnection
  split_ifs <;> simp
  all_goals split_ifs <;> simp

/-- The link check emits either the single connect-sequence event or none. -/
theorem monitor_events (status : Nat → Bool) (i : Nat) (s : SchedState) :
    (monitorWiFiConnection status i s).2.2 = [Event.connectSeq] ∨
    (monitorWiFiConnection status i s).2.2 = [] := by
  unfold monitorWiFiConnection
  split_ifs <;> simp

/-- The retry loop adds at most its remaining budget to the attempts
counter. -/
theorem connectLoop_attempts_le (status : Nat → Bool) :
    ∀ remaining i attempts,
      (connectLoop status i attempts remaining).2 ≤ attempts + remaining := by
  intro remaining
  induction remaining with
  | zero => intro i attempts; simp [connectLoop]
  | succ r ih =>
    intro i attempts
    rw [connectLoop]
    split
    · simp
    · exact le_trans (ih (i + 1) (attempts + 1)) (by omega)

/-- Per-kind event counts of a link check: the only event it can emit is
the connect sequence marker. -/
theorem monitor_countEvent (status : Nat → Bool) (i : Nat) (s : SchedState) :
    (countEvent Event.sensorRead (monitorWiFiConnection status i s).2.2 = 0) ∧
    (countEvent Event.wifiCheck (monitorWiFiConnection status i s).2.2 = 0) ∧
    (countEvent Event.wifiLog (monitorWiFiConnection status i s).2.2 = 0) ∧
    (countEvent Event.connectSeq (monitorWiFiConnection status i s).2.2 ≤ 1) := by
  rcases monitor_events status i s with h | h <;> rw [h] <;> exact ⟨rfl, rfl, rfl, by decide⟩

/-- A link check whose first status reading is down and whose post-connect
reading (line 231 of the sketch) is up ends Connected and calls
server.begin exactly once more. -/
theorem monitor_reconnect_begins (status : Nat → Bool) (i : Nat)
    (s : SchedState) (h1 : status i = false)
    (h2 : status (connectToNYUWiFi status (i + 1)).1 = true) :
    (monitorWiFiConnection status i s).2.1.wifiConnected = true ∧
    (monitorWiFiConnection status i s).2.1.serverBeginCalls =
      s.serverBeginCalls + 1 := by
  by_cases hw : s.wifiConnected <;>
    simp [monitorWiFiConnection, h1, h2, hw]

/-- A drop detected with the connected flag set increments the reconnect
counter by exactly one, whatever the connect sequence then does. -/
theorem monitor_drop_increments (status : Nat → Bool) (i : Nat)
    (s : SchedState) (hw : s.wifiConnected = true) (h1 : status i = false) :
    (monitorWiFiConnection status i s).2.1.wifiReconnectAttempts =
      s.wifiReconnectAttempts + 1 := by
  simp only [monitorWiFiConnection, h1, hw]
  split_ifs <;> simp

/-- A link check starting with the connected flag down never touches the
reconnect counter, whatever the readings. -/
theorem monitor_no_increment (status : Nat → Bool) (i : Nat)
    (s : SchedState) (hw : s.wifiConnected = false) :
    (monitorWiFiConnection status i s).2.1.wifiReconnectAttempts =
      s.wifiReconnectAttempts := by
  unfold monitorWiFiConnection
  split_ifs <;> simp_all
  all_goals split_ifs <;> simp_all

/-- A failed probe (every reading down) with the connected flag already
down leaves the whole state unchanged. -/
theorem monitor_fail_probe_id (i : Nat) (s : SchedState)
    (hw : s.wifiConnected = false) :
    (monitorWiFiConnection (fun _ => false) i s).2.1 = s := by
  simp [monitorWiFiConnection, hw]

/-- A drop with every reading down: flag cleared, counter bumped, nothing
else changes. -/
theorem monitor_drop_fail (i : Nat) (s : SchedState)
    (hw : s.wifiConnected = true) :
    (monitorWiFiConnection (fun _ => false) i s).2.1 =
      { s with wifiConnected := false,
               wifiReconnectAttempts := s.wifiReconnectAttempts + 1 } := by
  simp [monitorWiFiConnection, hw]

/-- Iterated failed probes starting disconnected change nothing. -/
theorem monitorRun_fail_id (n : Nat) :
    ∀ s : SchedState, s.wifiConnected = false →
      monitorRun (List.replicate n (fun _ => false)) s = s := by
  induction n with
  | zero => intro s _; rfl
  | succ m ih =>
    intro s hw
    rw [List.replicate_succ]
    show monitorRun (List.replicate m (fun _ => false))
      (monitorWiFiConnection (fun _ => false) 0 s).2.1 = s
    rw [monitor_fail_probe_id 0 s hw]
    exact ih s hw

/-- No tick code ever registers routes or enables CORS: both flags
survive any tick unchanged. -/
theorem loop_preserves_routes (calculateLux : Nat → Nat → Int)
    (inp : TickInput) (s : SchedState) :
    (loop calculateLux inp s).1.routesRegistered = s.routesRegistered ∧
    (loop calculateLux inp s).1.corsEnabled = s.corsEnabled := by
  have h1 := fun st => (monitor_preserves inp.wifiStatus 0 st).2.2.2.2.1
  have h2 := fun st => (monitor_preserves inp.wifiStatus 0 st).2.2.2.2.2
  simp only [loop]
  split_ifs <;> simp [h1, h2]

/-- Once halted (sensor bring-up failed), the system stays halted and
produces no event over any run. -/
theorem sysRun_halted (calculateLux : Nat → Nat → Int) :
    ∀ inps : List TickInput,
      sysRun calculateLux inps SysState.halted = (SysState.halted, []) := by
  intro inps
  induction inps with
  | nil => rfl
  | cons inp rest ih => simp [sysRun, sysStep, ih]

/-- Route and CORS registration flags survive whole runs of the loop. -/
theorem sysRun_preserves_routes (calculateLux : Nat → Nat → Int) :
    ∀ (inps : List TickInput) (s s2 : SchedState),
      (sysRun calculateLux inps (SysState.running s)).1 = SysState.running s2 →
      s2.routesRegistered = s.routesRegistered ∧
      s2.corsEnabled = s.corsEnabled := by
  intro inps
  induction inps with
  | nil =>
    intro s s2 h
    simp only [sysRun] at h
    cases h
    exact ⟨rfl, rfl⟩
  | cons inp rest ih =>
    intro s s2 h
    simp only [sysRun, sysStep] at h
    have hr := ih (loop calculateLux inp s).1 s2 h
    have hp := loop_preserves_routes calculateLux inp s
    exact ⟨hr.1.trans hp.1, hr.2.trans hp.2⟩

/-- Any tick keeps the snapshot timestamp between its previous value and
the tick time, as long as the counter has not wrapped. -/
theorem loop_timestamp_step (calculateLux : Nat → Nat → Int)
    (inp : TickInput) (s : SchedState)
    (h1 : s.latestData.timestamp ≤ inp.t) (h2 : inp.t < U32) :
    s.latestData.timestamp ≤ (loop calculateLux inp s).1.latestData.timestamp ∧
    (loop calculateLux inp s).1.latestData.timestamp ≤ inp.t := by
  have hm := fun st => (monitor_preserves inp.wifiStatus 0 st).2.2.2.1
  simp only [loop]
  split_ifs <;> simp [readLightSensor, hm, Nat.mod_eq_of_lt h2, h1]

/-- Along any run with non-decreasing, non-wrapping tick times, the
snapshot timestamps observed after successive ticks are non-decreasing. -/
theorem runStates_timestamp_chain (calculateLux : Nat → Nat → Int) :
    ∀ (inps : List TickInput) (s : SchedState),
      List.Chain' (fun a b => a.t ≤ b.t) inps →
      (∀ inp ∈ inps, inp.t < U32) →
      (∀ inp ∈ inps, s.latestData.timestamp ≤ inp.t) →
      List.Chain' (· ≤ ·)
        (s.latestData.timestamp ::
          (runStates calculateLux s inps).map fun st => st.latestData.timestamp) := by
  intro inps
  induction inps with
  | nil => intro s _ _ _; simp [runStates]
  | cons inp rest ih =>
    intro s hchain hlt hle
    haveI : IsTrans TickInput fun a b : TickInput => a.t ≤ b.t :=
      ⟨fun _ _ _ hab hbc => le_trans hab hbc⟩
    have hpair := List.chain'_iff_pairwise.mp hchain
    rw [List.pairwise_cons] at hpair
    have hstep := loop_timestamp_step calculateLux inp s
      (hle inp (List.mem_cons_self inp rest)) (hlt inp (List.mem_cons_self inp rest))
    have hrest := ih (loop calculateLux inp s).1
      ((List.chain'_cons'.mp hchain).2)
      (fun x hx => hlt x (List.mem_cons_of_mem inp hx))
      (fun x hx => le_trans hstep.2 (hpair.1 x hx))
    simp only [runStates, List.map_cons, List.chain'_cons]
    exact ⟨hstep.1, hrest⟩

/-- Event counting distributes over list append. -/
theorem countEvent_append (e : Event) (l1 l2 : List Event) :
    countEvent e (l1 ++ l2) = countEvent e l1 + countEvent e l2 := by
  induction l1 with
  | nil => simp [countEvent]
  | cons a l ih => simp [countEvent, ih, Nat.add_assoc]

/-! ### Claim theorems -/

/-- C4: for every state of the shared snapshot, a request to the /data
route returns a successful (status 200) structured response carrying
exactly the four fields visible_ir, ir, lux and timestamp of the
snapshot, never an error; queried before any sample has been taken it
serves the all-zero default snapshot. -/
theorem data_route_total :
    (∀ d : SensorData,
      handleData d =
        { statusCode := 200, contentType := "application/json",
          visible_ir := d.visible_ir, ir := d.ir, lux := d.lux,
          timestamp := d.timestamp }) ∧
    handleData latestDataInit =
      { statusCode := 200, contentType := "application/json",
        visible_ir := 0, ir := 0, lux := 0, timestamp := 0 } :=
  ⟨fun _ => rfl, rfl⟩

/-- C9: the scheduler's due-time test, computed as the modulo-2^32
difference of the current and last-run counter values compared against
the interval, decides exactly whether the true elapsed time reached the
interval, also when the 32-bit counter wrapped between the two readings,
for any interval below 2^31 (the true elapsed time being below 2^32). -/
theorem due_test_wraparound_correct (tLast tNow interval : Nat)
    (h1 : tLast ≤ tNow) (h2 : tNow - tLast < U32)
    (h3 : interval < 2147483648) :
    (interval ≤ millisSub (tNow % U32) (tLast % U32)) ↔
      (interval ≤ tNow - tLast) := by
  have h : millisSub (tNow % U32) (tLast % U32) = tNow - tLast := by
    unfold millisSub U32 at *
    omega
  rw [h]

/-- Witness for C9 at a wrapped pair of readings: last-run 2^32 - 200,
current 2^32 + 100 (reading 100), elapsed 300, interval 500: not due,
on both sides of the equivalence. -/
theorem due_test_wraparound_correct_witness :
    (4294967096 : Nat) ≤ 4294967396 ∧
    (4294967396 - 4294967096 : Nat) < U32 ∧
    (500 : Nat) < 2147483648 ∧
    ((500 ≤ millisSub (4294967396 % U32) (4294967096 % U32)) ↔
      (500 ≤ 4294967396 - 4294967096)) :=
  ⟨by decide, by decide, by decide,
    due_test_wraparound_correct 4294967096 4294967396 500
      (by decide) (by decide) (by decide)⟩

/-- C7: one invocation of the connect sequence always returns, after at
most 30 attempts and at most 31000 ms of fixed delays (1000 ms setup
delay plus 1000 ms per attempt), and a link check launches at most one
connect sequence, leaving any re-attempt to the next scheduled check. -/
theorem connect_sequence_bounded (status : Nat → Bool) (i : Nat)
    (s : SchedState) :
    (connectToNYUWiFi status i).2 ≤ 30 ∧
    connectDelayMs (connectToNYUWiFi status i).2 ≤ 31000 ∧
    countEvent Event.connectSeq (monitorWiFiConnection status i s).2.2 ≤ 1 := by
  have h : (connectLoop status i 0 30).2 ≤ 30 := by
    simpa using connectLoop_attempts_le status 30 i 0
  refine ⟨?_, ?_, (monitor_countEvent status i s).2.2.2⟩
  · simpa [connectToNYUWiFi] using h
  · have h2 : (connectToNYUWiFi status i).2 = (connectLoop status i 0 30).2 := rfl
    rw [h2]
    unfold connectDelayMs
    omega

/-- C8: if the sensor primitive's bring-up fails at boot the system
enters the indefinite signaling state and never reaches the scheduler
loop: over any sequence of tick inputs it stays halted and produces no
event - no request handling, no sensor sample, no link check, no log. -/
theorem boot_sensor_failure_halts (b : BootInput)
    (calculateLux : Nat → Nat → Int) (inps : List TickInput)
    (h : b.sensorInitOk = false) :
    setup b = SysState.halted ∧
    sysRun calculateLux inps (setup b) = (SysState.halted, []) := by
  have hs : setup b = SysState.halted := by
    unfold setup
    rw [h]
    simp
  exact ⟨hs, by rw [hs]; exact sysRun_halted calculateLux inps⟩

/-- Witness for C8: a concrete boot with failing sensor bring-up, run
over one tick input. -/
theorem boot_sensor_failure_halts_witness :
    (BootInput.mk false (fun _ => false)).sensorInitOk = false ∧
    (setup (BootInput.mk false (fun _ => false)) = SysState.halted ∧
     sysRun (fun _ _ => 0) [TickInput.mk 31000 0 (fun _ => false)]
       (setup (BootInput.mk false (fun _ => false))) =
       (SysState.halted, [])) :=
  ⟨rfl, boot_sensor_failure_halts (BootInput.mk false (fun _ => false))
    (fun _ _ => 0) [TickInput.mk 31000 0 (fun _ => false)] rfl⟩

/-- C2: the reconnect counter increases by exactly one at a detected
Connected-to-Disconnected transition of the link check (probe finds the
link down while the connected flag was set), never on a probe that
starts with the flag already down; a drop followed by n further failed
probes (all readings down) adds exactly 1 in total, not n + 1. -/
theorem reconnect_counter_once (s : SchedState) (n : Nat)
    (status : Nat → Bool) (i : Nat) (hw : s.wifiConnected = true) :
    (status i = false →
      (monitorWiFiConnection status i s).2.1.wifiReconnectAttempts =
        s.wifiReconnectAttempts + 1) ∧
    (∀ s1 : SchedState, s1.wifiConnected = false →
      (monitorWiFiConnection status i s1).2.1.wifiReconnectAttempts =
        s1.wifiReconnectAttempts) ∧
    (monitorRun (List.replicate (n + 1) (fun _ => false)) s).wifiReconnectAttempts =
      s.wifiReconnectAttempts + 1 := by
  refine ⟨monitor_drop_increments status i s hw,
    fun s1 h => monitor_no_increment status i s1 h, ?_⟩
  rw [List.replicate_succ]
  show (monitorRun (List.replicate n (fun _ => false))
      (monitorWiFiConnection (fun _ => false) 0 s).2.1).wifiReconnectAttempts = _
  rw [monitor_drop_fail 0 s hw]
  rw [monitorRun_fail_id n _ rfl]

/-- Witness for C2: from a connected state, a drop followed by five
failed probes (six link checks with every reading down) moves the
counter from 0 to exactly 1. -/
theorem reconnect_counter_once_witness :
    ({ initState with wifiConnected := true } : SchedState).wifiConnected = true ∧
    (monitorRun (List.replicate 6 (fun _ => false))
        { initState with wifiConnected := true }).wifiReconnectAttempts =
      ({ initState with wifiConnected := true } : SchedState).wifiReconnectAttempts + 1 :=
  ⟨rfl, (reconnect_counter_once { initState with wifiConnected := true } 5
    (fun _ => false) 0 rfl).2.2⟩

/-- C3 fails as stated: a link check that finds the link already up
while the connected flag was down (sketch lines 237-240) enters
Connected from a non-Connected state without restarting the server
listener - server.begin is not called on that transition. -/
theorem connected_entry_without_restart :
    initState.wifiConnected = false ∧
    (monitorWiFiConnection (fun _ => true) 0 initState).2.1.wifiConnected = true ∧
    (monitorWiFiConnection (fun _ => true) 0 initState).2.1.serverBeginCalls =
      initState.serverBeginCalls :=
  ⟨rfl, by decide, by decide⟩

/-- C3 amended: a transition entering Connected through the reconnect
path of the link check (the probe finds the link down and the bounded
connect sequence ends with the link up) restarts the server listener
exactly once; a probe that finds the link already up while the flag was
down enters Connected without a restart. -/
theorem connected_entry_restarts_server (status : Nat → Bool) (i : Nat)
    (s : SchedState) (h1 : status i = false)
    (h2 : status (connectToNYUWiFi status (i + 1)).1 = true) :
    (monitorWiFiConnection status i s).2.1.wifiConnected = true ∧
    (monitorWiFiConnection status i s).2.1.serverBeginCalls =
      s.serverBeginCalls + 1 :=
  monitor_reconnect_begins status i s h1 h2

/-- Witness for C3 amended: readings down at the probe, up after the
connect sequence; the listener is restarted once. -/
theorem connected_entry_restarts_server_witness :
    ((fun n => decide (0 < n)) 0 = false) ∧
    ((fun n => decide (0 < n))
      ((connectToNYUWiFi (fun n => decide (0 < n)) (0 + 1)).1) = true) ∧
    ((monitorWiFiConnection (fun n => decide (0 < n)) 0 initState).2.1.wifiConnected = true ∧
     (monitorWiFiConnection (fun n => decide (0 < n)) 0 initState).2.1.serverBeginCalls =
       initState.serverBeginCalls + 1) :=
  ⟨rfl, by decide,
    connected_entry_restarts_server (fun n => decide (0 < n)) 0 initState
      rfl (by decide)⟩

/-- C10: the two route handlers and the permissive CORS policy are
installed only during boot and only when the boot connect succeeds;
after a failed boot connect no run of the scheduler ever installs them,
even though a link check that detects a successful reconnect restarts
the bare listener (server.begin) while leaving both flags untouched. -/
theorem routes_only_from_boot (b : BootInput)
    (calculateLux : Nat → Nat → Int) (inps : List TickInput)
    (s1 : SchedState) (hs : b.sensorInitOk = true)
    (hc : b.wifiStatus (connectToNYUWiFi b.wifiStatus 0).1 = false)
    (hr : (sysRun calculateLux inps (setup b)).1 = SysState.running s1) :
    s1.routesRegistered = false ∧ s1.corsEnabled = false ∧
    (∀ (status : Nat → Bool) (i : Nat) (st : SchedState),
      status i = false →
      status (connectToNYUWiFi status (i + 1)).1 = true →
      (monitorWiFiConnection status i st).2.1.serverBeginCalls =
        st.serverBeginCalls + 1 ∧
      (monitorWiFiConnection status i st).2.1.routesRegistered =
        st.routesRegistered ∧
      (monitorWiFiConnection status i st).2.1.corsEnabled = st.corsEnabled) := by
  have hsetup : setup b = SysState.running initState := by
    unfold setup
    rw [hs]
    simp [hc]
  rw [hsetup] at hr
  have hpre := sysRun_preserves_routes calculateLux inps initState s1 hr
  refine ⟨hpre.1, hpre.2, fun status i st ha hb => ?_⟩
  exact ⟨(monitor_reconnect_begins status i st ha hb).2,
    (monitor_preserves status i st).2.2.2.2.1,
    (monitor_preserves status i st).2.2.2.2.2⟩

/-- Witness for C10: failed boot connect, one full tick at 31000 ms
(sensor, link check and log all due, reconnect failing): routes and CORS
remain uninstalled. -/
theorem routes_only_from_boot_witness :
    (BootInput.mk true (fun _ => false)).sensorInitOk = true ∧
    (BootInput.mk true (fun _ => false)).wifiStatus
      (connectToNYUWiFi (BootInput.mk true (fun _ => false)).wifiStatus 0).1 = false ∧
    (sysRun (fun _ _ => 0) [TickInput.mk 31000 0 (fun _ => false)]
        (setup (BootInput.mk true (fun _ => false)))).1 =
      SysState.running
        { prevSensorMillis := 31000, previousWiFiMillis := 31000,
          wifiLogMillis := 31000, wifiConnected := false,
          wifiReconnectAttempts := 0,
          latestData := { visible_ir := 0, ir := 0, lux := 0, timestamp := 31000 },
          serverBeginCalls := 0, routesRegistered := false,
          corsEnabled := false } ∧
    (({ prevSensorMillis := 31000, previousWiFiMillis := 31000,
        wifiLogMillis := 31000, wifiConnected := false,
        wifiReconnectAttempts := 0,
        latestData := { visible_ir := 0, ir := 0, lux := 0, timestamp := 31000 },
        serverBeginCalls := 0, routesRegistered := false,
        corsEnabled := false } : SchedState).routesRegistered = false ∧
     ({ prevSensorMillis := 31000, previousWiFiMillis := 31000,
        wifiLogMillis := 31000, wifiConnected := false,
        wifiReconnectAttempts := 0,
        latestData := { visible_ir := 0, ir := 0, lux := 0, timestamp := 31000 },
        serverBeginCalls := 0, routesRegistered := false,
        corsEnabled := false } : SchedState).corsEnabled = false) := by
  refine ⟨rfl, rfl, by decide, ?_, ?_⟩
  · exact (routes_only_from_boot (BootInput.mk true (fun _ => false))
      (fun _ _ => 0) [TickInput.mk 31000 0 (fun _ => false)] _ rfl rfl
      (by decide)).1
  · exact (routes_only_from_boot (BootInput.mk true (fun _ => false))
      (fun _ _ => 0) [TickInput.mk 31000 0 (fun _ => false)] _ rfl rfl
      (by decide)).2.1

/-- C1: on any tick, each periodic task whose elapsed time (32-bit
difference of the tick's current time and its last-run timer) has
reached its interval executes exactly once and its timer is reset to the
tick's current time, not advanced by its interval; a task not yet due
does not execute and keeps its timer - skip/drop, never a repeated
catch-up execution. -/
theorem scheduler_skip_drop (calculateLux : Nat → Nat → Int)
    (inp : TickInput) (s : SchedState) :
    ((sensorInterval ≤ millisSub (inp.t % U32) s.prevSensorMillis →
        countEvent Event.sensorRead (loop calculateLux inp s).2 = 1 ∧
        (loop calculateLux inp s).1.prevSensorMillis = inp.t % U32) ∧
     (¬ sensorInterval ≤ millisSub (inp.t % U32) s.prevSensorMillis →
        countEvent Event.sensorRead (loop calculateLux inp s).2 = 0 ∧
        (loop calculateLux inp s).1.prevSensorMillis = s.prevSensorMillis)) ∧
    ((wifiCheckInterval ≤ millisSub (inp.t % U32) s.previousWiFiMillis →
        countEvent Event.wifiCheck (loop calculateLux inp s).2 = 1 ∧
        (loop calculateLux inp s).1.previousWiFiMillis = inp.t % U32) ∧
     (¬ wifiCheckInterval ≤ millisSub (inp.t % U32) s.previousWiFiMillis →
        countEvent Event.wifiCheck (loop calculateLux inp s).2 = 0 ∧
        (loop calculateLux inp s).1.previousWiFiMillis = s.previousWiFiMillis)) ∧
    ((wifiLogInterval ≤ millisSub (inp.t % U32) s.wifiLogMillis →
        countEvent Event.wifiLog (loop calculateLux inp s).2 = 1 ∧
        (loop calculateLux inp s).1.wifiLogMillis = inp.t % U32) ∧
     (¬ wifiLogInterval ≤ millisSub (inp.t % U32) s.wifiLogMillis →
        countEvent Event.wifiLog (loop calculateLux inp s).2 = 0 ∧
        (loop calculateLux inp s).1.wifiLogMillis = s.wifiLogMillis)) := by
  have hp1 := fun st => (monitor_preserves inp.wifiStatus 0 st).1
  have hp2 := fun st => (monitor_preserves inp.wifiStatus 0 st).2.1
  have hp3 := fun st => (monitor_preserves inp.wifiStatus 0 st).2.2.1
  have hcS := fun st => (monitor_countEvent inp.wifiStatus 0 st).1
  have hcW := fun st => (monitor_countEvent inp.wifiStatus 0 st).2.1
  have hcL := fun st => (monitor_countEvent inp.wifiStatus 0 st).2.2.1
  simp only [loop]
  split_ifs <;> simp_all [countEvent, countEvent_append]

/-- Witness for C1: a single tick at 31000 ms with all last-run timers
at 0 and intervals 500 / 10000 / 30000: every task due, each runs
exactly once, every timer resets to 31000. -/
theorem scheduler_skip_drop_witness :
    (sensorInterval ≤ millisSub (31000 % U32) initState.prevSensorMillis ∧
     wifiCheckInterval ≤ millisSub (31000 % U32) initState.previousWiFiMillis ∧
     wifiLogInterval ≤ millisSub (31000 % U32) initState.wifiLogMillis) ∧
    (countEvent Event.sensorRead
        (loop (fun _ _ => 0) (TickInput.mk 31000 0 (fun _ => false)) initState).2 = 1 ∧
     (loop (fun _ _ => 0) (TickInput.mk 31000 0 (fun _ => false))
        initState).1.prevSensorMillis = 31000 % U32) ∧
    (countEvent Event.wifiCheck
        (loop (fun _ _ => 0) (TickInput.mk 31000 0 (fun _ => false)) initState).2 = 1 ∧
     (loop (fun _ _ => 0) (TickInput.mk 31000 0 (fun _ => false))
        initState).1.previousWiFiMillis = 31000 % U32) ∧
    (countEvent Event.wifiLog
        (loop (fun _ _ => 0) (TickInput.mk 31000 0 (fun _ => false)) initState).2 = 1 ∧
     (loop (fun _ _ => 0) (TickInput.mk 31000 0 (fun _ => false))
        initState).1.wifiLogMillis = 31000 % U32) := by
  refine ⟨⟨by decide, by decide, by decide⟩, ?_, ?_, ?_⟩
  · exact (scheduler_skip_drop (fun _ _ => 0)
      (TickInput.mk 31000 0 (fun _ => false)) initState).1.1 (by decide)
  · exact (scheduler_skip_drop (fun _ _ => 0)
      (TickInput.mk 31000 0 (fun _ => false)) initState).2.1.1 (by decide)
  · exact (scheduler_skip_drop (fun _ _ => 0)
      (TickInput.mk 31000 0 (fun _ => false)) initState).2.2.1 (by decide)

/-- C6: a sampler invocation splits the 32-bit composite reading into
the high 16 bits (infrared channel) and the low 16 bits
(broadband/visible channel), applies the calibration primitive to those
channels, and overwrites all four snapshot fields from this sample
alone; the snapshot after a due tick is a function of that tick's
reading only, so nothing of an earlier sample survives a later one. -/
theorem sampler_decomposes_and_overwrites (calculateLux : Nat → Nat → Int)
    (full tNow : Nat) (inp : TickInput) (s : SchedState)
    (hfull : full < U32)
    (hdue : sensorInterval ≤ millisSub (inp.t % U32) s.prevSensorMillis) :
    readLightSensor calculateLux full tNow =
      { visible_ir := full % 65536, ir := full / 65536,
        lux := calculateLux (full % 65536) (full / 65536),
        timestamp := tNow % U32 } ∧
    (loop calculateLux inp s).1.latestData =
      readLightSensor calculateLux inp.full inp.t := by
  constructor
  · simp [readLightSensor, Nat.mod_eq_of_lt hfull]
  · have hm := fun st => (monitor_preserves inp.wifiStatus 0 st).2.2.2.1
    simp only [loop]
    split_ifs <;> simp_all [hm]

/-- Witness for C6: composite reading 655460 (broadband 100, infrared
10, since 10 * 65536 + 100 = 655460) sampled at 600 ms, then 327730
(broadband 50, infrared 5) at 1200 ms: after the second due tick the
snapshot holds exactly the decomposition of the second reading. -/
theorem sampler_decomposes_and_overwrites_witness :
    327730 < U32 ∧
    sensorInterval ≤ millisSub (1200 % U32)
      ((loop (fun v w => (v : Int) - w)
          (TickInput.mk 600 655460 (fun _ => false)) initState).1).prevSensorMillis ∧
    (readLightSensor (fun v w => (v : Int) - w) 327730 1200 =
        { visible_ir := 327730 % 65536, ir := 327730 / 65536,
          lux := (fun v w => (v : Int) - w) (327730 % 65536) (327730 / 65536),
          timestamp := 1200 % U32 } ∧
     (loop (fun v w => (v : Int) - w) (TickInput.mk 1200 327730 (fun _ => false))
        ((loop (fun v w => (v : Int) - w)
            (TickInput.mk 600 655460 (fun _ => false)) initState).1)).1.latestData =
       readLightSensor (fun v w => (v : Int) - w) 327730 1200) := by
  refine ⟨by decide, by decide, ?_⟩
  exact sampler_decomposes_and_overwrites (fun v w => (v : Int) - w) 327730 1200
    (TickInput.mk 1200 327730 (fun _ => false))
    ((loop (fun v w => (v : Int) - w)
      (TickInput.mk 600 655460 (fun _ => false)) initState).1)
    (by decide) (by decide)

/-- C5 fails as stated: an execution crossing the 32-bit counter wrap
has a later sampler write with a smaller timestamp: ticks at 2^32 - 1 ms
and 2^32 + 500 ms both sample, writing timestamps 4294967295 and then
500. -/
theorem snapshot_timestamp_decreases_at_wrap :
    ((runStates (fun _ _ => 0) initState
        [TickInput.mk 4294967295 0 (fun _ => false),
         TickInput.mk 4294967796 0 (fun _ => false)]).map
      fun st => st.latestData.timestamp) = [4294967295, 500] ∧
    ¬ ((4294967295 : Nat) ≤ 500) :=
  ⟨by decide, by decide⟩

/-- C5 amended: across every execution in which the 32-bit millisecond
counter never wraps (tick times non-decreasing and below 2^32), the
snapshot timestamp is non-decreasing from tick to tick, hence across all
successive sampler writes; at a counter wrap the unamended claim fails. -/
theorem snapshot_timestamp_monotone (calculateLux : Nat → Nat → Int)
    (inps : List TickInput)
    (hchain : List.Chain' (fun a b => a.t ≤ b.t) inps)
    (hlt : ∀ inp ∈ inps, inp.t < U32) :
    List.Chain' (· ≤ ·)
      (initState.latestData.timestamp ::
        (runStates calculateLux initState inps).map
          fun st => st.latestData.timestamp) :=
  runStates_timestamp_chain calculateLux inps initState hchain hlt
    (fun inp _ => Nat.zero_le inp.t)

/-- Witness for C5 amended: ticks at 600 ms and 1200 ms, both sampling,
timestamps 0, 600, 1200 non-decreasing. -/
theorem snapshot_timestamp_monotone_witness :
    List.Chain' (fun a b : TickInput => a.t ≤ b.t)
      [TickInput.mk 600 655460 (fun _ => false),
       TickInput.mk 1200 327730 (fun _ => false)] ∧
    (∀ inp ∈ [TickInput.mk 600 655460 (fun _ => false),
              TickInput.mk 1200 327730 (fun _ => false)], inp.t < U32) ∧
    List.Chain' (· ≤ ·)
      (initState.latestData.timestamp ::
        (runStates (fun _ _ => 0) initState
            [TickInput.mk 600 655460 (fun _ => false),
             TickInput.mk 1200 327730 (fun _ => false)]).map
          fun st => st.latestData.timestamp) := by
  refine ⟨?_, ?_, ?_⟩
  · exact List.chain'_cons.mpr ⟨by decide, List.chain'_singleton _⟩
  · intro inp hinp
    simp only [List.mem_cons, List.mem_singleton, List.not_mem_nil] at hinp
    rcases hinp with h | h | h <;> first | (rw [h]; decide) | exact h.elim
  · exact snapshot_timestamp_monotone (fun _ _ => 0) _
      (List.chain'_cons.mpr ⟨by decide, List.chain'_singleton _⟩)
      (by intro inp hinp
          simp only [List.mem_cons, List.mem_singleton, List.not_mem_nil] at hinp
          rcases hinp with h | h | h <;> first | (rw [h]; decide) | exact h.elim)

end TurbEye
